import Mathlib

/-!
Shallow embedding of the Tsunami Sentinel core: the feed normalizer
(mapUsgsFeatureToEarthquakeEvent and the pure pipeline of fetchTsunamiData)
and the alert deduplication engine (the alert-evaluation effect of
TsunamiDashboard in App.tsx, lines 553-590).

Modelling conventions:
- JavaScript floating-point numbers are modelled as rationals; millisecond
  timestamps (Date values) as integers.
- The wall clock read by the engine (new Date()) is an explicit parameter
  now; the locale and ISO renderings of a Date are abstracted as canonical
  injective renderings of the millisecond timestamp, since their exact text
  is environment-dependent.
- A JavaScript Set of strings is modelled as a duplicate-free list in
  insertion order: setFrom models "new Set(array)" and setAdd models
  "set.add(x)".
- Array.prototype.sort with a comparator is a stable sort; it is modelled
  by insertionSort over the corresponding total relation, which realises
  exactly the stable order the comparator induces.
-/

namespace TsunamiSentinel

/-- Alert level of an event: 'none' | 'info' | 'advisory' | 'watch' | 'warning'
(types.ts). -/
inductive AlertLevel
  | none
  | info
  | advisory
  | watch
  | warning
  deriving DecidableEq, Repr

/-- The canonical event record (interface EarthquakeEvent in types.ts). -/
structure EarthquakeEvent where
  id : String
  title : String
  updated : ℤ
  link : String
  location : String
  magnitude : ℚ
  depth : ℚ
  lat : ℚ
  lon : ℚ
  isTsunamiWarning : Bool
  rawSummary : String
  alertLevel : AlertLevel
  deriving DecidableEq, Repr

/-- User alert configuration (interface AlertSettings in types.ts). -/
structure AlertSettings where
  minMagnitude : ℚ
  notificationsEnabled : Bool
  recipients : List String
  emailTemplate : String
  deriving DecidableEq, Repr

/-- A generated alert-log entry (interface GeneratedAlert in types.ts). -/
structure GeneratedAlert where
  id : String
  timestamp : String
  event : EarthquakeEvent
  body : String
  deriving DecidableEq, Repr

/-- Properties of a raw USGS feed record (interface UsgsFeature.properties
in tsunamiService.ts); tsunami is 0 or 1 in the feed and is kept numeric. -/
structure UsgsProperties where
  mag : Option ℚ
  place : String
  time : ℤ
  updated : ℤ
  url : String
  title : String
  tsunami : ℕ
  deriving DecidableEq, Repr

/-- Geometry of a raw USGS feed record: the coordinate triple, in feed
order [longitude, latitude, depth]. -/
structure UsgsGeometry where
  coordinates : ℚ × ℚ × ℚ
  deriving DecidableEq, Repr

/-- A raw USGS feed record (interface UsgsFeature in tsunamiService.ts). -/
structure UsgsFeature where
  id : String
  properties : UsgsProperties
  geometry : UsgsGeometry
  deriving DecidableEq, Repr

/-- Models JavaScript Number.prototype.toFixed(1): a sign for negative
values, then the absolute value rounded to the nearest tenth (ties away
from zero), rendered with exactly one digit after the decimal point.  For
q with numerator n and denominator d the rounded tenths value is
floor(|q| * 10 + 1/2) = (20 * |n| + d) / (2 * d), computed here on natural
numbers so that the definition evaluates by kernel reduction. -/
def toFixed1 (q : ℚ) : String :=
  let m : ℕ := (20 * q.num.natAbs + q.den) / (2 * q.den)
  (if q.num < 0 then "-" else "") ++ toString (m / 10) ++ "." ++ toString (m % 10)

/-- Replaces the first occurrence of pat in a character list by rep, as
JavaScript String.prototype.replace with a string pattern does; the list is
unchanged when pat does not occur. -/
def replaceFirstChars (pat rep : List Char) : List Char → List Char
  | [] => if pat = [] then rep else []
  | c :: cs =>
      if pat.isPrefixOf (c :: cs) then rep ++ (c :: cs).drop pat.length
      else c :: replaceFirstChars pat rep cs

/-- String version of replaceFirstChars: JavaScript s.replace(pat, rep). -/
def replaceFirst (s pat rep : String) : String :=
  ⟨replaceFirstChars pat.data rep.data s.data⟩

/-- Models formatDateTime (App.tsx): the locale rendering of a Date is
abstracted as a canonical injective rendering of its millisecond
timestamp. -/
def formatDateTime (t : ℤ) : String := "@" ++ toString t

/-- Models Date.prototype.toISOString: abstracted as a canonical injective
rendering of the millisecond timestamp. -/
def toISOString (t : ℤ) : String := "T" ++ toString t

/-- mapUsgsFeatureToEarthquakeEvent (tsunamiService.ts): maps one USGS
feature to an EarthquakeEvent, or none when the feature has no magnitude. -/
def mapUsgsFeatureToEarthquakeEvent (f : UsgsFeature) : Option EarthquakeEvent :=
  match f.properties.mag with
  | Option.none => Option.none
  | some mag =>
      let lon := f.geometry.coordinates.1
      let lat := f.geometry.coordinates.2.1
      let depth := f.geometry.coordinates.2.2
      let isTsunamiWarning : Bool := f.properties.tsunami = 1
      let alertLevel : AlertLevel :=
        if isTsunamiWarning then .warning
        else if mkRat 15 2 ≤ mag then .advisory
        else if mkRat 13 2 ≤ mag then .info
        else .none
      some
        { id := f.id
          title := f.properties.title
          updated := f.properties.updated
          link := f.properties.url
          location := f.properties.place
          magnitude := mag
          depth := depth
          lat := lat
          lon := lon
          isTsunamiWarning := isTsunamiWarning
          rawSummary := f.properties.title
          alertLevel := alertLevel }

/-- The sort relation of fetchTsunamiData: most recently updated first
(comparator (a, b) => b.updated.getTime() - a.updated.getTime()). -/
def byUpdatedDesc (a b : EarthquakeEvent) : Prop := b.updated ≤ a.updated

instance : DecidableRel byUpdatedDesc := fun a b =>
  inferInstanceAs (Decidable (b.updated ≤ a.updated))

instance : IsTotal EarthquakeEvent byUpdatedDesc :=
  ⟨fun a b => le_total b.updated a.updated⟩

instance : IsTrans EarthquakeEvent byUpdatedDesc :=
  ⟨fun _ _ _ h1 h2 => le_trans h2 h1⟩

/-- The pure core of fetchTsunamiData (tsunamiService.ts): map raw features
to events, drop invalid ones, and stable-sort descending by the updated
timestamp. -/
def normalize (features : List UsgsFeature) : List EarthquakeEvent :=
  List.insertionSort byUpdatedDesc
    (features.filterMap mapUsgsFeatureToEarthquakeEvent)

/-- Models JavaScript Set.prototype.add on an insertion-ordered string set:
appends the element when it is not yet present. -/
def setAdd (s : List String) (x : String) : List String :=
  if x ∈ s then s else s ++ [x]

/-- Models "new Set(array)" followed by iteration in insertion order:
keeps the first occurrence of each element. -/
def setFrom (l : List String) : List String := l.foldl setAdd []

/-- Template rendering of the alert engine (App.tsx lines 567-572): each
placeholder is substituted once by a first-occurrence string replace. -/
def renderEmailBody (tpl : String) (e : EarthquakeEvent) : String :=
  replaceFirst
    (replaceFirst
      (replaceFirst
        (replaceFirst
          (replaceFirst tpl "{magnitude}" (toFixed1 e.magnitude))
          "{location}" e.location)
        "{depth}" (toFixed1 e.depth ++ " km"))
      "{time}" (formatDateTime e.updated))
    "{link}" e.link

/-- Construction of one GeneratedAlert (App.tsx lines 574-579); now is the
wall-clock instant of the evaluation. -/
def mkGeneratedAlert (s : AlertSettings) (e : EarthquakeEvent) (now : ℤ) :
    GeneratedAlert :=
  { id := e.id ++ "-" ++ toISOString now
    timestamp := toISOString now
    event := e
    body := renderEmailBody s.emailTemplate e }

/-- One iteration of the events.forEach loop of the alert engine
(App.tsx lines 561-583): the accumulator carries the newAlerts list and the
evolving newProcessed set. -/
def evalStep (s : AlertSettings) (now : ℤ)
    (acc : List GeneratedAlert × List String) (e : EarthquakeEvent) :
    List GeneratedAlert × List String :=
  if e.id ∈ acc.2 then acc
  else if s.minMagnitude ≤ e.magnitude then
    (acc.1 ++ [mkGeneratedAlert s e now], setAdd acc.2 e.id)
  else acc

/-- The alert deduplication engine: the pure content of the evaluation
effect of TsunamiDashboard (App.tsx lines 553-590).  Returns the newAlerts
sequence and the processed-id list after the run; when no alert is
generated the effect writes nothing, so the input list is returned
unchanged. -/
def evaluate (events : List EarthquakeEvent) (s : AlertSettings)
    (processedIds : List String) (now : ℤ) :
    List GeneratedAlert × List String :=
  if s.notificationsEnabled = false ∨ s.recipients = [] ∨ events = [] then
    ([], processedIds)
  else if (events.foldl (evalStep s now) ([], setFrom processedIds)).1 = [] then
    ([], processedIds)
  else
    events.foldl (evalStep s now) ([], setFrom processedIds)

/-- The alert-log update of one evaluation (App.tsx lines 585-587): when
alerts were generated they are prepended to the log and the result is
truncated to the 50 most recent entries; otherwise the log is untouched. -/
def updateAlertLog (newAlerts log : List GeneratedAlert) : List GeneratedAlert :=
  if newAlerts = [] then log else (newAlerts ++ log).take 50

/-- A sequence of evaluation runs threading the processed-id list and the
alert log through successive calls; each step supplies an event list,
settings, and a wall-clock instant. -/
def runEvaluations (steps : List (List EarthquakeEvent × AlertSettings × ℤ))
    (p : List String) (log : List GeneratedAlert) :
    List String × List GeneratedAlert :=
  steps.foldl
    (fun st inp =>
      let r := evaluate inp.1 inp.2.1 st.1 inp.2.2
      (r.2, updateAlertLog r.1 st.2))
    (p, log)

/-- Classification priority exactly as the specification states it, written
independently of the normalizer: tsunamiFlag yields warning; otherwise
magnitude at least 7.5 (= 15/2) yields advisory; otherwise at least
6.5 (= 13/2) yields info; otherwise none. -/
def specAlertPriority (tsunamiFlag : Bool) (mag : ℚ) : AlertLevel :=
  if tsunamiFlag then .warning
  else if mkRat 15 2 ≤ mag then .advisory
  else if mkRat 13 2 ≤ mag then .info
  else .none

/-- The event of the specification's evaluation example: id e1,
magnitude 7.2, location Chile. -/
def exEventChile : EarthquakeEvent :=
  { id := "e1", title := "", updated := 0, link := "", location := "Chile",
    magnitude := mkRat 72 10, depth := 0, lat := 0, lon := 0,
    isTsunamiWarning := false, rawSummary := "", alertLevel := .none }

/-- The settings of the specification's evaluation example: threshold 7.0,
notifications enabled, one recipient, a magnitude/location template. -/
def exSettingsChile : AlertSettings :=
  { minMagnitude := 7, notificationsEnabled := true, recipients := ["a@b.com"],
    emailTemplate := "M{magnitude} near {location}" }

/-- A sub-threshold event (magnitude 6.6, below the 7.0 threshold of
exSettingsChile). -/
def exEventLow : EarthquakeEvent :=
  { id := "low1", title := "", updated := 5, link := "", location := "Fiji",
    magnitude := mkRat 66 10, depth := 0, lat := 0, lon := 0,
    isTsunamiWarning := false, rawSummary := "", alertLevel := .none }

/-- exSettingsChile with the magnitude threshold lowered to 6.0. -/
def exSettingsLow : AlertSettings :=
  { minMagnitude := 6, notificationsEnabled := true, recipients := ["a@b.com"],
    emailTemplate := "M{magnitude} near {location}" }

/-- The raw record of the specification's normalizer example: magnitude 7.8,
tsunami flag set, place Tonga, updated 1000, coordinates
[-175.2, -20.1, 10]. -/
def exFeatureTonga : UsgsFeature :=
  { id := "x1",
    properties :=
      { mag := some (mkRat 78 10), place := "Tonga", time := 900,
        updated := 1000, url := "L", title := "T", tsunami := 1 },
    geometry :=
      { coordinates := (Rat.divInt (-1752) 10, Rat.divInt (-201) 10, 10) } }

/-- The event exFeatureTonga normalizes to. -/
def exEventTonga : EarthquakeEvent :=
  { id := "x1", title := "T", updated := 1000, link := "L",
    location := "Tonga", magnitude := mkRat 78 10, depth := 10,
    lat := Rat.divInt (-201) 10, lon := Rat.divInt (-1752) 10,
    isTsunamiWarning := true, rawSummary := "T", alertLevel := .warning }

/-- A raw record with no magnitude; the normalizer must drop it. -/
def exFeatureNoMag : UsgsFeature :=
  { id := "m0",
    properties :=
      { mag := Option.none, place := "somewhere", time := 0, updated := 2000,
        url := "", title := "", tsunami := 0 },
    geometry := { coordinates := (0, 0, 0) } }

/-- A raw record with both the tsunami flag set and magnitude 9.0: the
priority order must classify it warning, not advisory. -/
def exFeatureWarning9 : UsgsFeature :=
  { id := "w9",
    properties :=
      { mag := some 9, place := "deep sea", time := 0, updated := 3000,
        url := "", title := "", tsunami := 1 },
    geometry := { coordinates := (0, 0, 0) } }

/-- A template exercising all five placeholders. -/
def exFullTemplate : String := "A {magnitude} {location} {depth} {time} {link}"

/-- The event exFeatureWarning9 normalizes to. -/
def exEventWarning9 : EarthquakeEvent :=
  { id := "w9", title := "", updated := 3000, link := "",
    location := "deep sea", magnitude := 9, depth := 0, lat := 0, lon := 0,
    isTsunamiWarning := true, rawSummary := "", alertLevel := .warning }

/-! Lemmas about the insertion-ordered set model. -/

theorem mem_setAdd (x y : String) (s : List String) :
    x ∈ setAdd s y ↔ x ∈ s ∨ x = y := by
  unfold setAdd
  by_cases h : y ∈ s
  · rw [if_pos h]
    constructor
    · exact Or.inl
    · intro hx
      cases hx with
      | inl h1 => exact h1
      | inr h2 => rw [h2]; exact h
  · rw [if_neg h]
    simp

theorem mem_setFrom_foldl (x : String) :
    ∀ (l acc : List String), x ∈ l.foldl setAdd acc ↔ x ∈ acc ∨ x ∈ l := by
  intro l
  induction l with
  | nil => simp
  | cons y ys ih =>
      intro acc
      rw [List.foldl_cons, ih, mem_setAdd]
      simp [or_assoc, or_comm, or_left_comm]

theorem mem_setFrom (x : String) (l : List String) :
    x ∈ setFrom l ↔ x ∈ l := by
  unfold setFrom
  rw [mem_setFrom_foldl]
  simp

/-! Lemmas about the evaluation fold. -/

theorem evalFold_fst_mono (s : AlertSettings) (now : ℤ) :
    ∀ (l : List EarthquakeEvent) (acc : List GeneratedAlert × List String)
      (a : GeneratedAlert), a ∈ acc.1 → a ∈ (l.foldl (evalStep s now) acc).1 := by
  intro l
  induction l with
  | nil => intro acc a ha; exact ha
  | cons e es ih =>
      intro acc a ha
      rw [List.foldl_cons]
      apply ih
      unfold evalStep
      split
      · exact ha
      · split
        · exact List.mem_append_left _ ha
        · exact ha

theorem evalFold_snd_mono (s : AlertSettings) (now : ℤ) :
    ∀ (l : List EarthquakeEvent) (acc : List GeneratedAlert × List String)
      (x : String), x ∈ acc.2 → x ∈ (l.foldl (evalStep s now) acc).2 := by
  intro l
  induction l with
  | nil => intro acc x hx; exact hx
  | cons e es ih =>
      intro acc x hx
      rw [List.foldl_cons]
      apply ih
      unfold evalStep
      split
      · exact hx
      · split
        · exact (mem_setAdd x e.id acc.2).mpr (Or.inl hx)
        · exact hx

theorem evalFold_snd_eq (s : AlertSettings) (now : ℤ) :
    ∀ (l : List EarthquakeEvent) (acc : List GeneratedAlert × List String)
      (P : List String), acc.2 = P ++ acc.1.map (fun a => a.event.id) →
      (l.foldl (evalStep s now) acc).2 =
        P ++ ((l.foldl (evalStep s now) acc).1).map (fun a => a.event.id) := by
  intro l
  induction l with
  | nil => intro acc P h; exact h
  | cons e es ih =>
      intro acc P h
      rw [List.foldl_cons]
      apply ih
      unfold evalStep
      split
      · exact h
      · rename_i hnotin
        split
        · show setAdd acc.2 e.id = _
          unfold setAdd
          rw [if_neg hnotin, h]
          simp [mkGeneratedAlert]
        · exact h

theorem evalFold_fst_mem (s : AlertSettings) (now : ℤ) :
    ∀ (l : List EarthquakeEvent) (acc : List GeneratedAlert × List String)
      (a : GeneratedAlert), a ∈ (l.foldl (evalStep s now) acc).1 →
      a ∈ acc.1 ∨ ∃ e ∈ l, a = mkGeneratedAlert s e now ∧
        s.minMagnitude ≤ e.magnitude := by
  intro l
  induction l with
  | nil => intro acc a ha; exact Or.inl ha
  | cons e es ih =>
      intro acc a ha
      rw [List.foldl_cons] at ha
      rcases ih _ a ha with h1 | ⟨e', he', rfl, hm⟩
      · unfold evalStep at h1
        split at h1
        · exact Or.inl h1
        · split at h1
          · rcases List.mem_append.mp h1 with h2 | h2
            · exact Or.inl h2
            · rename_i hmag
              refine Or.inr ⟨e, List.mem_cons_self e es, ?_, hmag⟩
              simpa using h2
          · exact Or.inl h1
      · exact Or.inr ⟨e', List.mem_cons_of_mem e he', rfl, hm⟩

theorem evalFold_skip (s : AlertSettings) (now : ℤ) :
    ∀ (l : List EarthquakeEvent) (acc : List GeneratedAlert × List String),
      (∀ e ∈ l, e.id ∈ acc.2 ∨ e.magnitude < s.minMagnitude) →
      l.foldl (evalStep s now) acc = acc := by
  intro l
  induction l with
  | nil => intro acc _; rfl
  | cons e es ih =>
      intro acc h
      rw [List.foldl_cons]
      have hstep : evalStep s now acc e = acc := by
        unfold evalStep
        rcases h e (List.mem_cons_self e es) with h1 | h1
        · rw [if_pos h1]
        · split
          · rfl
          · rw [if_neg (not_le.mpr h1)]
      rw [hstep]
      exact ih acc (fun x hx => h x (List.mem_cons_of_mem e hx))

theorem evalFold_threshold_mem (s : AlertSettings) (now : ℤ) :
    ∀ (l : List EarthquakeEvent) (acc : List GeneratedAlert × List String)
      (e : EarthquakeEvent), e ∈ l → s.minMagnitude ≤ e.magnitude →
      e.id ∈ (l.foldl (evalStep s now) acc).2 := by
  intro l
  induction l with
  | nil => intro acc e he; exact absurd he (List.not_mem_nil e)
  | cons x xs ih =>
      intro acc e he hm
      rw [List.foldl_cons]
      rcases List.mem_cons.mp he with rfl | he'
      · apply evalFold_snd_mono
        unfold evalStep
        by_cases hin : e.id ∈ acc.2
        · rw [if_pos hin]; exact hin
        · rw [if_neg hin, if_pos hm]
          exact (mem_setAdd e.id e.id acc.2).mpr (Or.inr rfl)
      · exact ih _ e he' hm

theorem evalFold_gen (s : AlertSettings) (now : ℤ) :
    ∀ (l : List EarthquakeEvent) (acc : List GeneratedAlert × List String)
      (e : EarthquakeEvent), e ∈ l → (∀ x ∈ l, x.id = e.id → x = e) →
      e.id ∉ acc.2 → s.minMagnitude ≤ e.magnitude →
      mkGeneratedAlert s e now ∈ (l.foldl (evalStep s now) acc).1 := by
  intro l
  induction l with
  | nil => intro acc e he; exact absurd he (List.not_mem_nil e)
  | cons x xs ih =>
      intro acc e he huniq hnotin hm
      rw [List.foldl_cons]
      by_cases hid : x.id = e.id
      · have hx : x = e := huniq x (List.mem_cons_self x xs) hid
        subst hx
        apply evalFold_fst_mono
        unfold evalStep
        rw [if_neg hnotin, if_pos hm]
        exact List.mem_append_right _ (List.mem_singleton_self _)
      · have he' : e ∈ xs := by
          rcases List.mem_cons.mp he with rfl | h
          · exact absurd rfl hid
          · exact h
        apply ih _ e he' (fun y hy => huniq y (List.mem_cons_of_mem x hy))
          ?_ hm
        unfold evalStep
        split
        · exact hnotin
        · split
          · intro hc
            rcases (mem_setAdd e.id x.id acc.2).mp hc with h1 | h1
            · exact hnotin h1
            · exact hid h1.symm
          · exact hnotin

theorem evalFold_clock_indep (s : AlertSettings) (now now' : ℤ) :
    ∀ (l : List EarthquakeEvent) (a a' : List GeneratedAlert)
      (q : List String),
      a.map (fun x => x.event) = a'.map (fun x => x.event) →
      a.map (fun x => x.body) = a'.map (fun x => x.body) →
      (l.foldl (evalStep s now) (a, q)).2 =
          (l.foldl (evalStep s now') (a', q)).2 ∧
        (l.foldl (evalStep s now) (a, q)).1.map (fun x => x.event) =
          (l.foldl (evalStep s now') (a', q)).1.map (fun x => x.event) ∧
        (l.foldl (evalStep s now) (a, q)).1.map (fun x => x.body) =
          (l.foldl (evalStep s now') (a', q)).1.map (fun x => x.body) := by
  intro l
  induction l with
  | nil => intro a a' q h1 h2; exact ⟨rfl, h1, h2⟩
  | cons e es ih =>
      intro a a' q h1 h2
      rw [List.foldl_cons, List.foldl_cons]
      unfold evalStep
      by_cases hin : e.id ∈ q
      · rw [if_pos hin, if_pos hin]
        exact ih a a' q h1 h2
      · rw [if_neg hin, if_neg hin]
        by_cases hm : s.minMagnitude ≤ e.magnitude
        · rw [if_pos hm, if_pos hm]
          apply ih
          · simp [mkGeneratedAlert, h1]
          · simp [mkGeneratedAlert, h2]
        · rw [if_neg hm, if_neg hm]
          exact ih a a' q h1 h2

/-! Lemmas about evaluate as a whole. -/

theorem evaluate_no_new (events : List EarthquakeEvent) (s : AlertSettings)
    (p : List String) (now : ℤ)
    (h : ∀ e ∈ events, s.minMagnitude ≤ e.magnitude → e.id ∈ p) :
    evaluate events s p now = ([], p) := by
  unfold evaluate
  by_cases hC : s.notificationsEnabled = false ∨ s.recipients = [] ∨ events = []
  · rw [if_pos hC]
  · rw [if_neg hC]
    have hfold : events.foldl (evalStep s now) ([], setFrom p) = ([], setFrom p) := by
      apply evalFold_skip
      intro e he
      by_cases hm : s.minMagnitude ≤ e.magnitude
      · exact Or.inl ((mem_setFrom _ _).mpr (h e he hm))
      · exact Or.inr (not_le.mp hm)
    rw [hfold]
    simp

theorem evaluate_threshold_mem (events : List EarthquakeEvent)
    (s : AlertSettings) (p : List String) (now : ℤ) (e : EarthquakeEvent)
    (he : e ∈ events) (hm : s.minMagnitude ≤ e.magnitude)
    (hC : ¬(s.notificationsEnabled = false ∨ s.recipients = [] ∨ events = [])) :
    e.id ∈ (evaluate events s p now).2 := by
  unfold evaluate
  rw [if_neg hC]
  have h3 := evalFold_threshold_mem s now events ([], setFrom p) e he hm
  by_cases hr : (events.foldl (evalStep s now) ([], setFrom p)).1 = []
  · rw [if_pos hr]
    have h2 := evalFold_snd_eq s now events ([], setFrom p) (setFrom p) (by simp)
    rw [hr] at h2
    simp only [List.map_nil, List.append_nil] at h2
    rw [h2] at h3
    show e.id ∈ p
    exact (mem_setFrom _ _).mp h3
  · rw [if_neg hr]
    exact h3

/-- C1: the alert evaluation is idempotent per event id.  If every event id
meeting the magnitude threshold is already in the processed set, evaluate
returns empty newAlerts and the processed set unchanged; in particular
running evaluate a second time on the processed set produced by a first run
with the same events and settings yields empty newAlerts and leaves the set
unchanged. -/
theorem claim1_evaluate_idempotent (events : List EarthquakeEvent)
    (s : AlertSettings) (p : List String) (now : ℤ) :
    ((∀ e ∈ events, s.minMagnitude ≤ e.magnitude → e.id ∈ p) →
        evaluate events s p now = ([], p)) ∧
      ∀ now' : ℤ,
        evaluate events s (evaluate events s p now).2 now' =
          ([], (evaluate events s p now).2) := by
  constructor
  · exact evaluate_no_new events s p now
  · intro now'
    by_cases hC : s.notificationsEnabled = false ∨ s.recipients = [] ∨ events = []
    · have h1 : evaluate events s p now = ([], p) := by
        unfold evaluate; rw [if_pos hC]
      rw [h1]
      show evaluate events s p now' = ([], p)
      unfold evaluate; rw [if_pos hC]
    · apply evaluate_no_new
      intro e he hm
      exact evaluate_threshold_mem events s p now e he hm hC

/-- Witness for C1: one event of magnitude 7.2 against threshold 7.0; with
its id already processed the run is a no-op, and a second run after a first
run from the empty processed set is a no-op. -/
theorem claim1_evaluate_idempotent_witness :
    evaluate [exEventChile] exSettingsChile ["e1"] 0 = ([], ["e1"]) ∧
      evaluate [exEventChile] exSettingsChile
          (evaluate [exEventChile] exSettingsChile [] 0).2 1 =
        ([], (evaluate [exEventChile] exSettingsChile [] 0).2) :=
  ⟨(claim1_evaluate_idempotent [exEventChile] exSettingsChile ["e1"] 0).1
      (by decide),
    (claim1_evaluate_idempotent [exEventChile] exSettingsChile [] 0).2 1⟩

/-- C9 counterexample: the code stamps each GeneratedAlert with the wall
clock, so two runs of evaluate on the same (events, settings, processedIds)
triple at different instants produce different outputs (the alert id and
timestamp differ); outputs are not identical as the claim states. -/
theorem claim9_clock_dependence_cex :
    evaluate [exEventChile] exSettingsChile [] 0 ≠
      evaluate [exEventChile] exSettingsChile [] 1 := by decide

/-- C9 amended: evaluate is deterministic given the triple and the
generation instant; across two runs at possibly different instants only the
generated alerts' id and timestamp fields can differ — the updated
processed set, the alert bodies, the embedded events, and the number and
order of alerts are identical. -/
theorem claim9_evaluate_deterministic_amended (events : List EarthquakeEvent)
    (s : AlertSettings) (p : List String) (now now' : ℤ) :
    (evaluate events s p now).2 = (evaluate events s p now').2 ∧
      (evaluate events s p now).1.map (fun a => a.body) =
        (evaluate events s p now').1.map (fun a => a.body) ∧
      (evaluate events s p now).1.map (fun a => a.event) =
        (evaluate events s p now').1.map (fun a => a.event) ∧
      (evaluate events s p now).1.length =
        (evaluate events s p now').1.length := by
  have hmain := evalFold_clock_indep s now now' events [] [] (setFrom p) rfl rfl
  by_cases hC : s.notificationsEnabled = false ∨ s.recipients = [] ∨ events = []
  · unfold evaluate
    rw [if_pos hC, if_pos hC]
    exact ⟨rfl, rfl, rfl, rfl⟩
  · have hiff : (events.foldl (evalStep s now) ([], setFrom p)).1 = [] ↔
        (events.foldl (evalStep s now') ([], setFrom p)).1 = [] := by
      constructor
      · intro h
        have h2 := hmain.2.2
        rw [h] at h2
        simp only [List.map_nil] at h2
        exact List.map_eq_nil_iff.mp h2.symm
      · intro h
        have h2 := hmain.2.2
        rw [h] at h2
        simp only [List.map_nil] at h2
        exact List.map_eq_nil_iff.mp h2
    by_cases hr : (events.foldl (evalStep s now) ([], setFrom p)).1 = []
    · have hr' := hiff.mp hr
      unfold evaluate
      rw [if_neg hC, if_neg hC, if_pos hr, if_pos hr']
      exact ⟨rfl, rfl, rfl, rfl⟩
    · have hr' : ¬(events.foldl (evalStep s now') ([], setFrom p)).1 = [] :=
        fun h => hr (hiff.mpr h)
      unfold evaluate
      rw [if_neg hC, if_neg hC, if_neg hr, if_neg hr']
      refine ⟨hmain.1, hmain.2.2, hmain.2.1, ?_⟩
      have h3 := congrArg List.length hmain.2.1
      simpa using h3

/-- C10: the processed set grows monotonically.  Every input id is still in
the set after evaluate; every id in the output set was in the input or is
the event id of a generated alert; and when no alert is generated both the
processed set and the alert log are left completely unchanged. -/
theorem claim10_processed_monotone (events : List EarthquakeEvent)
    (s : AlertSettings) (p : List String) (now : ℤ) :
    (∀ x ∈ p, x ∈ (evaluate events s p now).2) ∧
      (∀ x ∈ (evaluate events s p now).2,
        x ∈ p ∨ ∃ a ∈ (evaluate events s p now).1, a.event.id = x) ∧
      ((evaluate events s p now).1 = [] →
        (evaluate events s p now).2 = p ∧
          ∀ log : List GeneratedAlert,
            updateAlertLog (evaluate events s p now).1 log = log) := by
  by_cases hC : s.notificationsEnabled = false ∨ s.recipients = [] ∨ events = []
  · have h1 : evaluate events s p now = ([], p) := by
      unfold evaluate; rw [if_pos hC]
    rw [h1]
    exact ⟨fun x hx => hx, fun x hx => Or.inl hx,
      fun _ => ⟨rfl, fun log => by unfold updateAlertLog; rw [if_pos rfl]⟩⟩
  · by_cases hr : (events.foldl (evalStep s now) ([], setFrom p)).1 = []
    · have h1 : evaluate events s p now = ([], p) := by
        unfold evaluate; rw [if_neg hC, if_pos hr]
      rw [h1]
      exact ⟨fun x hx => hx, fun x hx => Or.inl hx,
        fun _ => ⟨rfl, fun log => by unfold updateAlertLog; rw [if_pos rfl]⟩⟩
    · have h1 : evaluate events s p now =
          events.foldl (evalStep s now) ([], setFrom p) := by
        unfold evaluate; rw [if_neg hC, if_neg hr]
      rw [h1]
      have hsnd := evalFold_snd_eq s now events ([], setFrom p) (setFrom p) (by simp)
      refine ⟨?_, ?_, fun hempty => absurd hempty hr⟩
      · intro x hx
        rw [hsnd]
        exact List.mem_append_left _ ((mem_setFrom _ _).mpr hx)
      · intro x hx
        rw [hsnd] at hx
        rcases List.mem_append.mp hx with h2 | h2
        · exact Or.inl ((mem_setFrom _ _).mp h2)
        · rcases List.mem_map.mp h2 with ⟨a, ha, rfl⟩
          exact Or.inr ⟨a, ha, rfl⟩

/-- Witness for C10: an id already in the processed set is still there
after a run that generates nothing. -/
theorem claim10_processed_monotone_witness :
    "e1" ∈ (evaluate [exEventLow] exSettingsChile ["e1"] 0).2 :=
  (claim10_processed_monotone [exEventLow] exSettingsChile ["e1"] 0).1 "e1"
    (by decide)

/-! Lemmas about the normalizer. -/

theorem mapUsgs_none (f : UsgsFeature) (h : f.properties.mag = Option.none) :
    mapUsgsFeatureToEarthquakeEvent f = Option.none := by
  unfold mapUsgsFeatureToEarthquakeEvent
  rw [h]

/-- C2: the normalizer assigns alertLevel by the fixed first-match priority
stated in the spec (tsunami flag, then magnitude at least 7.5, then at
least 6.5, then none); in particular a record with the tsunami flag set and
magnitude 9.0 is classified warning, not advisory. -/
theorem claim2_alertLevel_priority :
    (∀ (f : UsgsFeature) (e : EarthquakeEvent),
        mapUsgsFeatureToEarthquakeEvent f = some e →
        e.alertLevel = specAlertPriority e.isTsunamiWarning e.magnitude) ∧
      (mapUsgsFeatureToEarthquakeEvent exFeatureWarning9).map
          (fun e => e.alertLevel) = some AlertLevel.warning := by
  constructor
  · intro f e h
    unfold mapUsgsFeatureToEarthquakeEvent at h
    cases hm : f.properties.mag with
    | none => rw [hm] at h; exact Option.noConfusion h
    | some mag =>
        rw [hm] at h
        have h2 := Option.some.inj h
        subst h2
        rfl
  · decide

/-- Witness for C2 at the tsunami-flagged magnitude-9 record. -/
theorem claim2_alertLevel_priority_witness :
    exEventWarning9.alertLevel =
      specAlertPriority exEventWarning9.isTsunamiWarning
        exEventWarning9.magnitude :=
  claim2_alertLevel_priority.1 exFeatureWarning9 exEventWarning9 (by decide)

/-- C5: normalize silently drops every record whose magnitude is absent,
and every output event originates from an input record that has a
magnitude. -/
theorem claim5_normalize_drops_magless :
    (∀ f : UsgsFeature, f.properties.mag = Option.none →
        mapUsgsFeatureToEarthquakeEvent f = Option.none) ∧
      ∀ (rs : List UsgsFeature) (e : EarthquakeEvent), e ∈ normalize rs →
        ∃ f ∈ rs, f.properties.mag ≠ Option.none ∧
          mapUsgsFeatureToEarthquakeEvent f = some e := by
  constructor
  · exact mapUsgs_none
  · intro rs e he
    have he' : e ∈ rs.filterMap mapUsgsFeatureToEarthquakeEvent := by
      unfold normalize at he
      exact (List.mem_insertionSort byUpdatedDesc).mp he
    rcases List.mem_filterMap.mp he' with ⟨f, hf, hmap⟩
    refine ⟨f, hf, ?_, hmap⟩
    intro hnone
    rw [mapUsgs_none f hnone] at hmap
    exact Option.noConfusion hmap

/-- Witness for C5: a concrete record with no magnitude maps to nothing. -/
theorem claim5_normalize_drops_magless_witness :
    mapUsgsFeatureToEarthquakeEvent exFeatureNoMag = Option.none :=
  claim5_normalize_drops_magless.1 exFeatureNoMag (by decide)

/-- C8: the normalizer reads the coordinate triple as
[longitude, latitude, depth] without transposition; in particular the
spec's Tonga record yields lon -175.2, lat -20.1, depth 10 and level
warning. -/
theorem claim8_coordinate_order :
    (∀ (f : UsgsFeature) (e : EarthquakeEvent),
        mapUsgsFeatureToEarthquakeEvent f = some e →
        e.lon = f.geometry.coordinates.1 ∧
          e.lat = f.geometry.coordinates.2.1 ∧
          e.depth = f.geometry.coordinates.2.2) ∧
      (mapUsgsFeatureToEarthquakeEvent exFeatureTonga).map
          (fun e => (e.lon, e.lat, e.depth, e.alertLevel)) =
        some (Rat.divInt (-1752) 10, Rat.divInt (-201) 10, 10,
          AlertLevel.warning) := by
  constructor
  · intro f e h
    unfold mapUsgsFeatureToEarthquakeEvent at h
    cases hm : f.properties.mag with
    | none => rw [hm] at h; exact Option.noConfusion h
    | some mag =>
        rw [hm] at h
        have h2 := Option.some.inj h
        subst h2
        exact ⟨rfl, rfl, rfl⟩
  · decide

/-- Witness for C8 at the spec's Tonga record. -/
theorem claim8_coordinate_order_witness :
    exEventTonga.lon = exFeatureTonga.geometry.coordinates.1 ∧
      exEventTonga.lat = exFeatureTonga.geometry.coordinates.2.1 ∧
      exEventTonga.depth = exFeatureTonga.geometry.coordinates.2.2 :=
  claim8_coordinate_order.1 exFeatureTonga exEventTonga (by decide)

/-! Stability of the sort. -/

theorem filter_orderedInsert (t : ℤ) (x : EarthquakeEvent) :
    ∀ l : List EarthquakeEvent,
      (List.orderedInsert byUpdatedDesc x l).filter (fun e => e.updated == t) =
        if x.updated = t then x :: l.filter (fun e => e.updated == t)
        else l.filter (fun e => e.updated == t) := by
  intro l
  induction l with
  | nil =>
      by_cases hx : x.updated = t
      · rw [if_pos hx]
        simp [List.orderedInsert, hx]
      · rw [if_neg hx]
        simp [List.orderedInsert, hx]
  | cons y ys ih =>
      by_cases hr : byUpdatedDesc x y
      · rw [List.orderedInsert, if_pos hr]
        by_cases hx : x.updated = t
        · rw [if_pos hx]
          simp [List.filter_cons, hx]
        · rw [if_neg hx]
          simp [List.filter_cons, hx]
      · rw [List.orderedInsert, if_neg hr]
        have hlt : x.updated < y.updated := not_le.mp hr
        by_cases hx : x.updated = t
        · have hy : ¬(y.updated = t) := by
            intro hc
            rw [hc, ← hx] at hlt
            exact lt_irrefl _ hlt
          rw [if_pos hx]
          simp [List.filter_cons, ih, hx, hy]
        · rw [if_neg hx]
          simp [List.filter_cons, ih, hx]

theorem filter_insertionSort (t : ℤ) :
    ∀ l : List EarthquakeEvent,
      (List.insertionSort byUpdatedDesc l).filter (fun e => e.updated == t) =
        l.filter (fun e => e.updated == t) := by
  intro l
  induction l with
  | nil => rfl
  | cons x xs ih =>
      rw [List.insertionSort, filter_orderedInsert]
      by_cases hx : x.updated = t
      · rw [if_pos hx, ih]
        simp [List.filter_cons, hx]
      · rw [if_neg hx, ih]
        simp [List.filter_cons, hx]

/-- C6: normalize's output is sorted descending by the updated timestamp
(any two adjacent events satisfy it), and the sort is stable: for every
timestamp the subsequence of output events carrying it equals the
subsequence of pre-sort events carrying it, so ties keep their original
relative order. -/
theorem claim6_normalize_sorted_stable (rs : List UsgsFeature) :
    List.Chain' (fun a b : EarthquakeEvent => b.updated ≤ a.updated)
        (normalize rs) ∧
      ∀ t : ℤ,
        (normalize rs).filter (fun e => e.updated == t) =
          (rs.filterMap mapUsgsFeatureToEarthquakeEvent).filter
            (fun e => e.updated == t) := by
  constructor
  · have hs := List.sorted_insertionSort byUpdatedDesc
      (rs.filterMap mapUsgsFeatureToEarthquakeEvent)
    exact List.Pairwise.chain' hs
  · intro t
    exact filter_insertionSort t _

/-! Generation of an alert for an eligible event. -/

theorem evaluate_gen (events : List EarthquakeEvent) (s : AlertSettings)
    (p : List String) (now : ℤ) (e : EarthquakeEvent) (he : e ∈ events)
    (huniq : ∀ x ∈ events, x.id = e.id → x = e) (hnp : e.id ∉ p)
    (hen : s.notificationsEnabled = true) (hrec : s.recipients ≠ [])
    (hm : s.minMagnitude ≤ e.magnitude) :
    e ∈ ((evaluate events s p now).1.map (fun a => a.event)) := by
  have hC : ¬(s.notificationsEnabled = false ∨ s.recipients = [] ∨
      events = []) := by
    push_neg
    exact ⟨by simp [hen], hrec, List.ne_nil_of_mem he⟩
  have hgen := evalFold_gen s now events ([], setFrom p) e he huniq
    (fun hc => hnp ((mem_setFrom _ _).mp hc)) hm
  have hr : ¬(events.foldl (evalStep s now) ([], setFrom p)).1 = [] := by
    intro hc
    rw [hc] at hgen
    exact List.not_mem_nil _ hgen
  have heq : evaluate events s p now =
      events.foldl (evalStep s now) ([], setFrom p) := by
    unfold evaluate
    rw [if_neg hC, if_neg hr]
  rw [heq]
  exact List.mem_map.mpr ⟨mkGeneratedAlert s e now, hgen, rfl⟩

/-- C3: an event strictly below the threshold neither generates an alert
nor has its id added to the processed set (its id is in the output set only
if it already was in the input set), and it stays eligible: after lowering
the threshold below its magnitude, a repeated evaluate on the processed set
left by the first run does generate an alert for it. -/
theorem claim3_subthreshold_eligible (events : List EarthquakeEvent)
    (s : AlertSettings) (p : List String) (now : ℤ) (e : EarthquakeEvent)
    (he : e ∈ events) (hnd : (events.map (fun x => x.id)).Nodup)
    (hm : e.magnitude < s.minMagnitude) :
    (e.id ∈ (evaluate events s p now).2 → e.id ∈ p) ∧
      (∀ a ∈ (evaluate events s p now).1, a.event.id ≠ e.id) ∧
      ∀ (s' : AlertSettings) (now' : ℤ), e.id ∉ p →
        s'.notificationsEnabled = true → s'.recipients ≠ [] →
        s'.minMagnitude ≤ e.magnitude →
        e ∈ ((evaluate events s' (evaluate events s p now).2 now').1.map
          (fun a => a.event)) := by
  have huniq : ∀ x ∈ events, x.id = e.id → x = e := fun x hx hxe =>
    List.inj_on_of_nodup_map hnd hx he hxe
  have hcases : evaluate events s p now = ([], p) ∨
      evaluate events s p now =
        events.foldl (evalStep s now) ([], setFrom p) := by
    unfold evaluate
    split
    · exact Or.inl rfl
    · split
      · exact Or.inl rfl
      · exact Or.inr rfl
  have hconj2 : ∀ a ∈ (evaluate events s p now).1, a.event.id ≠ e.id := by
    rcases hcases with h1 | h1 <;> rw [h1]
    · intro a ha
      exact absurd ha (List.not_mem_nil a)
    · intro a ha hae
      rcases evalFold_fst_mem s now events ([], setFrom p) a ha with
        h0 | ⟨e', he', hmk, hm'⟩
      · exact absurd h0 (List.not_mem_nil a)
      · have he2 : e' = e := by
          apply huniq e' he'
          rw [hmk] at hae
          simpa [mkGeneratedAlert] using hae
        rw [he2] at hm'
        exact absurd hm' (not_le.mpr hm)
  have hconj1 : e.id ∈ (evaluate events s p now).2 → e.id ∈ p := by
    rcases hcases with h1 | h1
    · rw [h1]
      exact fun hin => hin
    · rw [h1]
      intro hin
      have hsnd := evalFold_snd_eq s now events ([], setFrom p) (setFrom p)
        (by simp)
      rw [hsnd] at hin
      rcases List.mem_append.mp hin with h2 | h2
      · exact (mem_setFrom _ _).mp h2
      · exfalso
        rcases List.mem_map.mp h2 with ⟨a, ha, haid⟩
        refine hconj2 a ?_ haid
        rw [h1]
        exact ha
  refine ⟨hconj1, hconj2, ?_⟩
  intro s' now' hnp hen hrec hm'
  exact evaluate_gen events s' (evaluate events s p now).2 now' e he huniq
    (fun hc => hnp (hconj1 hc)) hen hrec hm'

/-- Witness for C3: a magnitude-6.6 event against threshold 7.0 is left
unprocessed, and lowering the threshold to 6.0 makes the second run
generate its alert. -/
theorem claim3_subthreshold_eligible_witness :
    exEventLow ∈ ((evaluate [exEventLow] exSettingsLow
        (evaluate [exEventLow] exSettingsChile [] 0).2 1).1.map
      (fun a => a.event)) :=
  ((claim3_subthreshold_eligible [exEventLow] exSettingsChile [] 0 exEventLow
      (by decide) (by decide) (by decide)).2.2) exSettingsLow 1 (by decide)
    (by decide) (by decide) (by decide)

/-! The alert log bound. -/

theorem runEvaluations_cons (st : List EarthquakeEvent × AlertSettings × ℤ)
    (sts : List (List EarthquakeEvent × AlertSettings × ℤ)) (p : List String)
    (log : List GeneratedAlert) :
    runEvaluations (st :: sts) p log =
      runEvaluations sts (evaluate st.1 st.2.1 p st.2.2).2
        (updateAlertLog (evaluate st.1 st.2.1 p st.2.2).1 log) := rfl

/-- C4: starting from an alert log of at most 50 entries, after any
sequence of evaluate calls (each prepending its new alerts and truncating
to the 50 most recent) the log still has at most 50 entries. -/
theorem claim4_alert_log_bounded
    (steps : List (List EarthquakeEvent × AlertSettings × ℤ))
    (p : List String) (log : List GeneratedAlert) (h : log.length ≤ 50) :
    ((runEvaluations steps p log).2).length ≤ 50 := by
  induction steps generalizing p log with
  | nil => exact h
  | cons st sts ih =>
      rw [runEvaluations_cons]
      apply ih
      unfold updateAlertLog
      split
      · exact h
      · rw [List.length_take]
        exact min_le_left _ _

/-- Witness for C4: one evaluation run from the empty log. -/
theorem claim4_alert_log_bounded_witness :
    ((runEvaluations [([exEventChile], exSettingsChile, 0)] [] []).2).length ≤
      50 :=
  claim4_alert_log_bounded [([exEventChile], exSettingsChile, 0)] [] []
    (by decide)

/-- C7: every generated alert's body is the template rendered by
substituting each placeholder once (magnitude and depth to one decimal,
depth with a km suffix, the absolute timestamp, the location and the
link); the spec's concrete example produces exactly one alert with body
M7.2 near Chile and the processed set [e1], and a template with all five
placeholders renders all of them. -/
theorem claim7_template_rendering :
    (∀ (events : List EarthquakeEvent) (s : AlertSettings) (p : List String)
        (now : ℤ), ∀ a ∈ (evaluate events s p now).1,
        a.body = renderEmailBody s.emailTemplate a.event) ∧
      evaluate [exEventChile] exSettingsChile [] 0 =
        ([{ id := "e1-T0", timestamp := "T0", event := exEventChile,
            body := "M7.2 near Chile" }], ["e1"]) ∧
      renderEmailBody exFullTemplate exEventTonga =
        "A 7.8 Tonga 10.0 km @1000 L" := by
  refine ⟨?_, by decide, by decide⟩
  intro events s p now a ha
  unfold evaluate at ha
  split at ha
  · exact absurd ha (List.not_mem_nil a)
  · split at ha
    · exact absurd ha (List.not_mem_nil a)
    · rcases evalFold_fst_mem s now events ([], setFrom p) a ha with
        h0 | ⟨e', he', hmk, hm'⟩
      · exact absurd h0 (List.not_mem_nil a)
      · rw [hmk]
        rfl

/-- Witness for C7: the body of the alert generated for the spec's example
event equals the rendered template. -/
theorem claim7_template_rendering_witness :
    (mkGeneratedAlert exSettingsChile exEventChile 0).body =
      renderEmailBody exSettingsChile.emailTemplate
        (mkGeneratedAlert exSettingsChile exEventChile 0).event :=
  claim7_template_rendering.1 [exEventChile] exSettingsChile [] 0
    (mkGeneratedAlert exSettingsChile exEventChile 0) (by decide)

end TsunamiSentinel
